import Mathlib

/-!
Verification of the retrieval/ingestion core of the `erse-api` repository.

The Python sources `src/services/ingestion.py` and `src/services/retrieval.py`
are embedded shallowly: Python strings become `List Char`; Python slicing,
`str.strip`, `str.rfind` and `str.lower` become the executable functions below;
the Qdrant vector store becomes an association list from point ids to
payloads; and the outcomes of the external similarity-query / scroll calls are
passed in explicitly (`Option`/a flag, with `none`/`false` standing for a
raised exception).  Scores are modelled as rationals.
-/

namespace Erse

/-- Python strings are modelled as lists of characters. -/
abbrev PyStr := List Char

/-- The characters Python's `str.strip()` and the regex class `\s` treat as
whitespace (ASCII). -/
def pyIsSpace (c : Char) : Bool :=
  c = ' ' || c = '\t' || c = '\n' || c = '\x0d' || c = '\x0b' || c = '\x0c'

/-- `s.strip()`: drop leading and trailing whitespace. -/
def pyStrip (s : PyStr) : PyStr :=
  ((s.dropWhile pyIsSpace).reverse.dropWhile pyIsSpace).reverse

/-- Python slice `s[a:b]` for non-negative bounds (clamped at the length). -/
def pySlice (s : PyStr) (a b : Nat) : PyStr :=
  (s.drop a).take (b - a)

/-- `s.lower()` (the sources only ever lowercase ASCII identifiers/queries). -/
def pyLower (s : PyStr) : PyStr :=
  s.map Char.toLower

/-- Adjust one bound of `str.rfind(sub, a, b)` the way Python adjusts slice
indices: a negative index counts from the end (clamped at 0), a too-large
index is clamped at the length. -/
def pyAdjIdx (len : Nat) (i : Int) : Nat :=
  if i < 0 then (len + i).toNat else min i.toNat len

/-- Does `sub` occur at the front of `s`? -/
def strMatch : PyStr → PyStr → Bool
  | [], _ => true
  | _ :: _, [] => false
  | a :: sub, c :: s => a = c && strMatch sub s

/-- One left-to-right pass recording the last position `p` with
`lo ≤ p`, `p + sub.length ≤ hi` and `sub` occurring at `p`. -/
def pyRfindAux (sub : PyStr) (lo hi : Nat) : PyStr → Nat → Int → Int
  | [], _, best => best
  | c :: rest, p, best =>
      let best' := if lo ≤ p && p + sub.length ≤ hi && strMatch sub (c :: rest)
        then (p : Int) else best
      pyRfindAux sub lo hi rest (p + 1) best'

/-- `s.rfind(sub, a, b)`: highest index of an occurrence of `sub` inside the
(adjusted) bounds, `-1` when there is none. -/
def pyRfind (s sub : PyStr) (a b : Int) : Int :=
  pyRfindAux sub (pyAdjIdx s.length a) (pyAdjIdx s.length b) s 0 (-1)

/-! ## `chunk_text` (src/services/ingestion.py, lines 18-44) -/

/-- One iteration of the `while start < len(text)` loop of `chunk_text`:
returns the next value of `start` together with the stripped chunk cut in
this iteration (possibly empty, in which case it is not appended). -/
def chunkStep (text : PyStr) (chunk_size overlap : Nat) (start : Nat) :
    Nat × PyStr :=
  let end0 := start + chunk_size
  let end1 :=
    if end0 < text.length then
      let last_period := pyRfind text ['.', ' '] ((end0 : Int) - 100) (end0 : Int)
      if last_period > (start : Int) then (last_period + 1).toNat else end0
    else end0
  let chunk := pyStrip (pySlice text start end1)
  -- `start = end - overlap; if start < 0: start = 0` is Nat truncated subtraction
  (end1 - overlap, chunk)

/-- The loop of `chunk_text`, with explicit fuel.  The loop's control state is
just `start` (a deterministic function of its previous value), so if the loop
has not finished within `text.length + 1` iterations some `start` value has
repeated and the Python loop runs forever; `none` reports that divergence. -/
def chunkLoop (text : PyStr) (chunk_size overlap : Nat) :
    Nat → Nat → List PyStr → Option (List PyStr)
  | 0, start, chunks => if start < text.length then none else some chunks
  | fuel' + 1, start, chunks =>
    if start < text.length then
      let s := chunkStep text chunk_size overlap start
      chunkLoop text chunk_size overlap fuel' s.1
        (if s.2 = [] then chunks else chunks ++ [s.2])
    else some chunks

/-- `chunk_text(text, chunk_size, overlap)`; `none` means the Python loop
never terminates on this input. -/
def chunk_text (text : PyStr) (chunk_size overlap : Nat) :
    Option (List PyStr) :=
  if text.length ≤ chunk_size then some [text]
  else chunkLoop text chunk_size overlap (text.length + 1) 0 []

/-! ## `generate_point_id` (ingestion.py, lines 47-52) -/

/-- Python `str(x)` for an `Optional[int]` (as interpolated by the f-string). -/
def pyStrOfOptInt : Option Int → PyStr
  | none => "None".toList
  | some n => (toString n).toList

/-- The key string `f"{regulation}_{article_no}_{content[:100]}"` built by
`generate_point_id`.  The Python function returns the UUID formed from the
MD5 hash of this key; since that derivation is a fixed deterministic function
of the key, point ids are modelled by the key itself (equal keys yield equal
UUIDs). -/
def generate_point_id (content regulation : PyStr) (article_no : Option Int) :
    PyStr :=
  regulation ++ '_' :: (pyStrOfOptInt article_no ++ '_' :: content.take 100)

/-! ## The vector store, as the ingestion path uses it -/

/-- The payload stored with a point (ingestion.py, lines 156-163). -/
structure Payload where
  content : PyStr
  regulation : PyStr
  article_no : Option Int
  title : PyStr
  url : PyStr
  chunk_index : Nat
  deriving DecidableEq, Repr

/-- The store: an association list from point ids to payloads (ids unique). -/
abbrev Store := List (PyStr × Payload)

/-- Upsert of a single point: replace the point with this id, or append. -/
def storeUpsertOne : Store → PyStr → Payload → Store
  | [], id, pl => [(id, pl)]
  | e :: rest, id, pl =>
      if e.1 == id then (id, pl) :: rest else e :: storeUpsertOne rest id pl

/-- `client.upsert(points)`: points are written in order, later points with
the same id overwriting earlier ones. -/
def storeUpsert (store : Store) (points : List (PyStr × Payload)) : Store :=
  points.foldl (fun st p => storeUpsertOne st p.1 p.2) store

/-- Retrieve the payload stored under an id. -/
def storeLookup (store : Store) (id : PyStr) : Option Payload :=
  (store.find? (fun e => e.1 == id)).map Prod.snd

/-! ## `ingest_document` (ingestion.py, lines 131-174) -/

/-- The `points` list built by `ingest_document`'s loop: one point per chunk,
in order, with `chunk_index` = position (`enumerate`).  The embedding vectors
are produced by the external embedding gateway, one per chunk, and play no
role in ids, payloads or the returned count. -/
def ingestPoints (regulation : PyStr) (article_no : Option Int)
    (title url : PyStr) (chunks : List PyStr) : List (PyStr × Payload) :=
  chunks.enum.map (fun ic =>
    (generate_point_id ic.2 regulation article_no,
     { content := ic.2, regulation := pyLower regulation,
       article_no := article_no, title := title, url := url,
       chunk_index := ic.1 }))

/-- `ingest_document(regulation, content, article_no, title, url)` run against
`store`: chunk with the default parameters (1000, 200), upsert one point per
chunk, and return the new store together with `len(points)`.  `none` means
the chunking loop diverged. -/
def ingest_document (regulation content : PyStr) (article_no : Option Int)
    (title url : PyStr) (store : Store) : Option (Store × Nat) :=
  (chunk_text content 1000 200).map (fun chunks =>
    let points := ingestPoints regulation article_no title url chunks
    (storeUpsert store points, points.length))

/-! ## `detect_article_number` (src/services/retrieval.py, lines 56-70)

Each of the four regex patterns is an executable matcher; `re.search`'s
leftmost-match rule is a scan over start positions.  In each pattern the
pieces `\.?`, `\s*` and `(\d+)` consume pairwise disjoint character classes,
so greedy matching without backtracking is exact. -/

/-- Value of the digit group `(\d+)` (maximal run, decimal value). -/
def digitsVal (ds : PyStr) : Nat :=
  ds.foldl (fun acc c => acc * 10 + (c.toNat - '0'.toNat)) 0

/-- Match `\s*(\d+)` at the front of `s`. -/
def matchWsDigits (s : PyStr) : Option Nat :=
  let rest := s.dropWhile pyIsSpace
  let ds := rest.takeWhile Char.isDigit
  if ds = [] then none else some (digitsVal ds)

/-- Match `article\s*(\d+)` at the front of `s`. -/
def matchPat1 (s : PyStr) : Option Nat :=
  if strMatch "article".toList s then matchWsDigits (s.drop 7) else none

/-- Match `art\.?\s*(\d+)` at the front of `s`. -/
def matchPat2 (s : PyStr) : Option Nat :=
  if strMatch "art".toList s then
    match s.drop 3 with
    | '.' :: rest => matchWsDigits rest
    | rest => matchWsDigits rest
  else none

/-- Match `gdpr\s*(\d+)` at the front of `s`. -/
def matchPat3 (s : PyStr) : Option Nat :=
  if strMatch "gdpr".toList s then matchWsDigits (s.drop 4) else none

/-- Match `article\s*#?\s*(\d+)` at the front of `s`. -/
def matchPat4 (s : PyStr) : Option Nat :=
  if strMatch "article".toList s then
    match (s.drop 7).dropWhile pyIsSpace with
    | '#' :: rest => matchWsDigits rest
    | rest =>
        let ds := rest.takeWhile Char.isDigit
        if ds = [] then none else some (digitsVal ds)
  else none

/-- `re.search`: try the matcher at every start position, left to right. -/
def searchPat (m : PyStr → Option Nat) : PyStr → Option Nat
  | [] => m []
  | c :: rest =>
      match m (c :: rest) with
      | some v => some v
      | none => searchPat m rest

/-- `detect_article_number(query)`: lowercase the query, try the four
patterns in order, return the first pattern's leftmost match. -/
def detect_article_number (query : PyStr) : Option Nat :=
  let q := pyLower query
  match searchPat matchPat1 q with
  | some v => some v
  | none =>
    match searchPat matchPat2 q with
    | some v => some v
    | none =>
      match searchPat matchPat3 q with
      | some v => some v
      | none => searchPat matchPat4 q

/-! ## `search_regulations` (retrieval.py, lines 73-159) -/

/-- A condition `FieldCondition(key=..., match=MatchValue(value=...))`. -/
structure FieldCondition where
  key : PyStr
  value : PyStr
  deriving DecidableEq, Repr

/-- A Qdrant `Filter` as this code builds it: either all conditions must
hold, or at least one should. -/
inductive QFilter
  | must (conditions : List FieldCondition)
  | should (conditions : List FieldCondition)
  deriving DecidableEq, Repr

/-- Filter construction (retrieval.py, lines 87-99): `none` regulations or an
empty list give no filter, a single code gives a `must` filter, several codes
give a `should` (OR) filter. -/
def buildSearchFilter (regulations : Option (List PyStr)) : Option QFilter :=
  match regulations with
  | none => none
  | some regs =>
    if 0 < regs.length then
      let conditions : List FieldCondition :=
        regs.map (fun reg => ⟨"regulation".toList, pyLower reg⟩)
      if conditions.length = 1 then some (QFilter.must conditions)
      else some (QFilter.should conditions)
    else none

/-- The external store's evaluation of one field condition on a payload (the
only key this code ever filters on is `"regulation"`). -/
def condMatches (c : FieldCondition) (p : Payload) : Bool :=
  c.key == "regulation".toList && p.regulation == c.value

/-- The external store's evaluation of a filter: `must` = all conditions,
`should` = at least one, no filter = everything matches. -/
def filterMatches : Option QFilter → Payload → Bool
  | none, _ => true
  | some (QFilter.must cs), p => cs.all (fun c => condMatches c p)
  | some (QFilter.should cs), p => cs.any (fun c => condMatches c p)

/-- A similarity-query hit: a stored payload plus its per-query score. -/
structure ScoredPoint where
  payload : Payload
  score : ℚ
  deriving DecidableEq, Repr

/-- The result dictionaries `search_regulations` returns. -/
structure RChunk where
  content : PyStr
  regulation : PyStr
  article_no : Option Int
  title : PyStr
  url : PyStr
  score : ℚ
  deriving DecidableEq, Repr

/-- Formatting of one similarity hit (retrieval.py, lines 115-124). -/
def toChunk (r : ScoredPoint) : RChunk :=
  { content := r.payload.content, regulation := r.payload.regulation,
    article_no := r.payload.article_no, title := r.payload.title,
    url := r.payload.url, score := r.score }

/-- The boosted score: `min(score + 0.3, 1.0)` (retrieval.py, line 136). -/
def boostScore (s : ℚ) : ℚ := min (s + 3/10) 1

/-- Score boost applied to a matching chunk. -/
def boostChunk (c : RChunk) : RChunk := { c with score := boostScore c.score }

/-- The dictionary inserted for a fallback-scan hit (lines 148-155): fixed
score `0.9`. -/
def fallbackChunk (p : Payload) : RChunk :=
  { content := p.content, regulation := p.regulation,
    article_no := p.article_no, title := p.title, url := p.url,
    score := 9/10 }

/-- `search_regulations(query, regulations, k)`.  The two external store
calls are passed in as arguments: `simResults` is the outcome of
`client.query_points` (`none` = the call raised) and `storePoints`/`scrollOk`
give the outcome of `client.scroll(limit=100)` (`scrollOk = false` = the call
raised, otherwise the scan enumerates `storePoints.take 100`).  The
regulation filter is built exactly as the code builds it; whether the
external query honoured it is a property of `simResults`, stated as a
hypothesis where a claim needs it.  Python guards the whole boost/fallback
block with the truthiness test `if article_num:`, which is false both for
`None` and for a detected article number 0, hence the `if n = 0` below. -/
def search_regulations (query : PyStr) (regulations : Option (List PyStr))
    (k : Nat) (simResults : Option (List ScoredPoint))
    (storePoints : List Payload) (scrollOk : Bool) : List RChunk :=
  let article_num := detect_article_number query
  let _search_filter := buildSearchFilter regulations
  match simResults with
  | none => []
  | some results =>
    let chunks := results.map toChunk
    let chunks :=
      match article_num with
      | none => chunks
      | some n =>
        if n = 0 then chunks
        else
          let matching :=
            chunks.filter (fun (c : RChunk) => c.article_no == some (n : Int))
          let non_matching :=
            chunks.filter
              (fun (c : RChunk) => !(c.article_no == some (n : Int)))
          if matching = [] then
            if scrollOk then
              (((storePoints.take 100).filter
                  (fun (p : Payload) =>
                    p.article_no == some (n : Int))).reverse.map
                fallbackChunk) ++ chunks
            else chunks
          else (matching.map boostChunk) ++ non_matching
    chunks.take k

end Erse

namespace Erse

/-! ## Helper lemmas -/

/-- After upserting a point, looking its id up yields exactly that payload. -/
theorem storeLookup_storeUpsertOne (st : Store) (id : PyStr) (pl : Payload) :
    storeLookup (storeUpsertOne st id pl) id = some pl := by
  induction st with
  | nil =>
      show storeLookup [(id, pl)] id = some pl
      rw [storeLookup, List.find?_cons_of_pos _ (by simp)]
      rfl
  | cons e rest ih =>
      cases h : e.1 == id with
      | true =>
          show storeLookup (if e.1 == id then (id, pl) :: rest
              else e :: storeUpsertOne rest id pl) id = some pl
          rw [h, if_pos rfl, storeLookup, List.find?_cons_of_pos _ (by simp)]
          rfl
      | false =>
          show storeLookup (if e.1 == id then (id, pl) :: rest
              else e :: storeUpsertOne rest id pl) id = some pl
          rw [h, if_neg (by simp), storeLookup,
            List.find?_cons_of_neg _ (by simpa using h)]
          exact ih

/-- A state of the chunking loop that steps to itself while cutting a
non-empty chunk keeps the loop running for ever: the fuelled loop returns
`none` for every fuel. -/
theorem chunkLoop_stuck (text : PyStr) (cs ov start : Nat) (c : PyStr)
    (hlt : start < text.length)
    (hstep : chunkStep text cs ov start = (start, c)) (hc : ¬ c = []) :
    ∀ fuel chunks, chunkLoop text cs ov fuel start chunks = none := by
  intro fuel
  induction fuel with
  | zero =>
      intro chunks
      simp only [chunkLoop]
      rw [if_pos hlt]
  | succ m ih =>
      intro chunks
      simp only [chunkLoop]
      rw [if_pos hlt, hstep]
      show chunkLoop text cs ov m start
        (if c = [] then chunks else chunks ++ [c]) = none
      rw [if_neg hc]
      exact ih (chunks ++ [c])

/-- Branch of `search_regulations` when no article number is detected. -/
theorem search_regulations_no_article (query : PyStr)
    (regulations : Option (List PyStr)) (k : Nat)
    (results : List ScoredPoint) (storePoints : List Payload) (scrollOk : Bool)
    (hn : detect_article_number query = none) :
    search_regulations query regulations k (some results) storePoints scrollOk
      = (results.map toChunk).take k := by
  simp only [search_regulations, hn]

/-- Branch of `search_regulations` when the detected article number is 0:
Python's truthiness guard `if article_num:` is false, so the similarity
results are returned unchanged, with no boost and no fallback scan. -/
theorem search_regulations_zero_article (query : PyStr)
    (regulations : Option (List PyStr)) (k : Nat)
    (results : List ScoredPoint) (storePoints : List Payload) (scrollOk : Bool)
    (hn : detect_article_number query = some 0) :
    search_regulations query regulations k (some results) storePoints scrollOk
      = (results.map toChunk).take k := by
  simp only [search_regulations, hn, if_pos]

/-- Branch of `search_regulations` when a nonzero article number is detected
and some similarity result carries it. -/
theorem search_regulations_match_branch (query : PyStr)
    (regulations : Option (List PyStr)) (k : Nat)
    (results : List ScoredPoint) (storePoints : List Payload) (scrollOk : Bool)
    (n : Nat)
    (hn : detect_article_number query = some n) (hn0 : n ≠ 0)
    (hmatch : (results.map toChunk).filter
        (fun c => c.article_no == some (n : Int)) ≠ []) :
    search_regulations query regulations k (some results) storePoints scrollOk
      = ((((results.map toChunk).filter
            (fun c => c.article_no == some (n : Int))).map boostChunk)
          ++ (results.map toChunk).filter
            (fun c => !(c.article_no == some (n : Int)))).take k := by
  simp only [search_regulations, hn, if_neg hn0, if_neg hmatch]

/-- Branch of `search_regulations` when a nonzero article number is
detected, no similarity result carries it, and the scroll call succeeds. -/
theorem search_regulations_fallback_branch (query : PyStr)
    (regulations : Option (List PyStr)) (k : Nat)
    (results : List ScoredPoint) (storePoints : List Payload) (n : Nat)
    (hn : detect_article_number query = some n) (hn0 : n ≠ 0)
    (hmiss : (results.map toChunk).filter
        (fun c => c.article_no == some (n : Int)) = []) :
    search_regulations query regulations k (some results) storePoints true
      = ((((storePoints.take 100).filter
            (fun p => p.article_no == some (n : Int))).reverse.map fallbackChunk)
          ++ results.map toChunk).take k := by
  simp only [search_regulations, hn, if_neg hn0, hmiss, if_pos, if_true]

/-! ## The claims -/

/-- Claim C1 (code bug): the spec demands termination for every
`overlap < chunk_size`, with `start` advancing by at least one character per
iteration.  The code has no such guard: with `chunk_size = 10`,
`overlap = 9` (so `overlap < chunk_size`) on the text
`"ab. cdefghijklmnop"`, the sentence-boundary backtrack moves the window end
to index 3, and `start = end - overlap` then clamps back to 0 on every
iteration, so the Python loop never terminates: the fuelled loop returns
`none` for every fuel. -/
theorem chunk_text_small_params_infinite_loop :
    (∀ fuel chunks,
      chunkLoop "ab. cdefghijklmnop".toList 10 9 fuel 0 chunks = none)
    ∧ chunk_text "ab. cdefghijklmnop".toList 10 9 = none := by
  have key := chunkLoop_stuck "ab. cdefghijklmnop".toList 10 9 0 "ab.".toList
    (by decide) (by decide) (by decide)
  refine ⟨key, ?_⟩
  have hle : ¬ ("ab. cdefghijklmnop".toList).length ≤ 10 := by decide
  simp only [chunk_text]
  rw [if_neg hle]
  exact key _ []

/-- Claim C6: if the similarity query raises (store unreachable, malformed
filter), `search_regulations` returns the empty list instead of propagating
the error. -/
theorem search_query_error_returns_empty (query : PyStr)
    (regulations : Option (List PyStr)) (k : Nat)
    (storePoints : List Payload) (scrollOk : Bool) :
    search_regulations query regulations k none storePoints scrollOk = [] :=
  rfl

/-- Claim C7, counterexample: on empty input the chunker does not yield an
empty chunk sequence — it returns the single-element list `[""]`. -/
theorem chunk_text_empty_cex : ¬ chunk_text [] 1000 200 = some [] := by
  decide

/-- Claim C7 (amended): `chunk_text` on empty input returns one chunk, the
empty string, and `ingest_document` consequently reports 1 chunk created
(not 0). -/
theorem chunk_text_empty_single_empty_chunk :
    chunk_text [] 1000 200 = some [[]]
    ∧ ∀ (regulation : PyStr) (article_no : Option Int) (title url : PyStr)
        (store : Store),
        (ingest_document regulation [] article_no title url store).map
          Prod.snd = some 1 := by
  refine ⟨rfl, ?_⟩
  intro regulation article_no title url store
  rfl

/-- Claim C8, counterexample: on the input `" a "` (length ≤ chunk_size) the
chunker returns the text verbatim, not the whitespace-trimmed `"a"` the
claim requires. -/
theorem chunk_text_short_untrimmed_cex :
    chunk_text " a ".toList 1000 200 = some [" a ".toList]
    ∧ ¬ chunk_text " a ".toList 1000 200 = some [pyStrip " a ".toList] := by
  decide

/-- Claim C8 (amended): for `len(text) ≤ chunk_size`, `chunk_text` returns
exactly one chunk equal to the input text verbatim (trimming happens only in
the multi-chunk loop). -/
theorem chunk_text_short_single_chunk (text : PyStr) (chunk_size overlap : Nat)
    (h : text.length ≤ chunk_size) :
    chunk_text text chunk_size overlap = some [text] := by
  simp [chunk_text, h]

/-- Witness for `chunk_text_short_single_chunk` at the input `" a "`. -/
theorem chunk_text_short_single_chunk_witness :
    (" a ".toList).length ≤ 1000
    ∧ chunk_text " a ".toList 1000 200 = some [" a ".toList] :=
  ⟨by decide, chunk_text_short_single_chunk " a ".toList 1000 200 (by decide)⟩

/-- Claim C10: `detect_article_number` matches the letters `art` inside the
ordinary word `start`, so the query `"start 5"` — which never mentions an
article — is detected as a request for article 5, and (with no similarity
hit for article 5) it triggers the fallback scan, returning the stored
article-5 chunk with score 0.9. -/
theorem detect_article_in_ordinary_word :
    detect_article_number "start 5".toList = some 5
    ∧ search_regulations "start 5".toList none 5 (some [])
        [⟨"c5".toList, "gdpr".toList, some 5, [], [], 0⟩] true
      = [fallbackChunk ⟨"c5".toList, "gdpr".toList, some 5, [], [], 0⟩] := by
  refine ⟨by decide, ?_⟩
  rw [search_regulations_fallback_branch "start 5".toList none 5 []
    [⟨"c5".toList, "gdpr".toList, some 5, [], [], 0⟩] 5 (by decide) (by decide)
    (by decide)]
  rfl

end Erse

namespace Erse

/-- Claim C9: `generate_point_id` depends only on the regulation, the
article number and the first 100 characters of the content.  When a document
chunks into two chunks whose first 100 characters coincide, both receive the
same point id, so the second chunk's upsert overwrites the first stored
entry — while `ingest_document` still counts both chunks in its returned
count. -/
theorem ingest_id_collision_overwrites (regulation content : PyStr)
    (article_no : Option Int) (title url : PyStr) (store : Store)
    (c1 c2 : PyStr)
    (hchunks : chunk_text content 1000 200 = some [c1, c2])
    (hpfx : c1.take 100 = c2.take 100) :
    generate_point_id c1 regulation article_no
      = generate_point_id c2 regulation article_no
    ∧ ingest_document regulation content article_no title url store
        = some (storeUpsert store
            (ingestPoints regulation article_no title url [c1, c2]), 2)
    ∧ storeLookup
        (storeUpsert store
          (ingestPoints regulation article_no title url [c1, c2]))
        (generate_point_id c1 regulation article_no)
      = some { content := c2, regulation := pyLower regulation,
               article_no := article_no, title := title, url := url,
               chunk_index := 1 } := by
  have hid : generate_point_id c1 regulation article_no
      = generate_point_id c2 regulation article_no := by
    simp only [generate_point_id, hpfx]
  refine ⟨hid, ?_, ?_⟩
  · simp only [ingest_document]
    rw [hchunks]
    rfl
  · have hpts : ingestPoints regulation article_no title url [c1, c2]
        = [(generate_point_id c1 regulation article_no,
            { content := c1, regulation := pyLower regulation,
              article_no := article_no, title := title, url := url,
              chunk_index := 0 }),
           (generate_point_id c2 regulation article_no,
            { content := c2, regulation := pyLower regulation,
              article_no := article_no, title := title, url := url,
              chunk_index := 1 })] := rfl
    rw [hpts, hid]
    exact storeLookup_storeUpsertOne _ _ _

set_option maxRecDepth 20000 in
/-- Witness for `ingest_id_collision_overwrites`: a 1001-character document
whose two chunks (1000 'a's, then 200 'a's followed by 'b') share their
first 100 characters. -/
theorem ingest_id_collision_overwrites_witness :
    chunk_text (List.replicate 1000 'a' ++ ['b']) 1000 200
      = some [List.replicate 1000 'a', List.replicate 200 'a' ++ ['b']]
    ∧ generate_point_id (List.replicate 1000 'a') "gdpr".toList (some 17)
      = generate_point_id (List.replicate 200 'a' ++ ['b']) "gdpr".toList
          (some 17) := by
  have h : chunk_text (List.replicate 1000 'a' ++ ['b']) 1000 200
      = some [List.replicate 1000 'a', List.replicate 200 'a' ++ ['b']] := by
    decide
  exact ⟨h, (ingest_id_collision_overwrites "gdpr".toList
    (List.replicate 1000 'a' ++ ['b']) (some 17) [] [] []
    (List.replicate 1000 'a') (List.replicate 200 'a' ++ ['b'])
    h (by decide)).1⟩

/-- Claim C2 (amended): when a nonzero article number N is detected —
Python's `if article_num:` treats a detected 0 as no detection, see the
counterexample — and no top-k similarity result carries it, every stored
chunk with `article_no = N` inside the 100-point scan window is prepended to
the result list with score exactly 0.9, and the returned list has such a
chunk at position 0. -/
theorem search_article_fallback (query : PyStr)
    (regulations : Option (List PyStr)) (k : Nat)
    (results : List ScoredPoint) (storePoints : List Payload) (n : Nat)
    (hn : detect_article_number query = some n) (hn0 : n ≠ 0)
    (hmiss : (results.map toChunk).filter
        (fun c => c.article_no == some (n : Int)) = [])
    (hk : 1 ≤ k)
    (hhit : (storePoints.take 100).filter
        (fun p => p.article_no == some (n : Int)) ≠ []) :
    search_regulations query regulations k (some results) storePoints true
      = ((((storePoints.take 100).filter
            (fun p => p.article_no == some (n : Int))).reverse.map
            fallbackChunk)
          ++ results.map toChunk).take k
    ∧ (∀ c ∈ (((storePoints.take 100).filter
          (fun p => p.article_no == some (n : Int))).reverse.map
            fallbackChunk),
        c.score = 9/10 ∧ c.article_no = some (n : Int))
    ∧ ∃ c, (search_regulations query regulations k (some results) storePoints
          true).head? = some c
        ∧ c.article_no = some (n : Int) ∧ c.score = 9/10 := by
  have heq := search_regulations_fallback_branch query regulations k results
    storePoints n hn hn0 hmiss
  refine ⟨heq, ?_, ?_⟩
  · intro c hc
    rcases List.mem_map.1 hc with ⟨p, hp, rfl⟩
    exact ⟨rfl, eq_of_beq ((List.mem_filter.1 (List.mem_reverse.1 hp)).2)⟩
  · obtain ⟨p, ps, hcons⟩ : ∃ p ps,
        ((storePoints.take 100).filter
          (fun p => p.article_no == some (n : Int))).reverse = p :: ps := by
      rcases h : ((storePoints.take 100).filter
          (fun p => p.article_no == some (n : Int))).reverse with _ | ⟨p, ps⟩
      · exact absurd (List.reverse_eq_nil_iff.1 h) hhit
      · exact ⟨p, ps, h⟩
    have hmem : p ∈ (storePoints.take 100).filter
        (fun p => p.article_no == some (n : Int)) := by
      rw [← List.mem_reverse, hcons]
      exact List.mem_cons_self _ _
    refine ⟨fallbackChunk p, ?_, eq_of_beq ((List.mem_filter.1 hmem).2), rfl⟩
    rw [heq, hcons]
    simp only [List.map_cons, List.cons_append, List.head?_take,
      List.head?_cons]
    rw [if_neg (by omega)]

/-- Witness for `search_article_fallback`: the query "article 17" against a
store holding a dsa article-17 point, with no similarity hits. -/
theorem search_article_fallback_witness :
    detect_article_number "article 17".toList = some 17
    ∧ ∃ c, (search_regulations "article 17".toList (some ["gdpr".toList]) 5
          (some []) [⟨"x17".toList, "dsa".toList, some 17, [], [], 0⟩]
          true).head? = some c
        ∧ c.article_no = some (17 : Int) ∧ c.score = 9/10 :=
  ⟨by decide, (search_article_fallback "article 17".toList
    (some ["gdpr".toList]) 5 []
    [⟨"x17".toList, "dsa".toList, some 17, [], [], 0⟩] 17
    (by decide) (by decide) (by decide) (by decide) (by decide)).2.2⟩

end Erse

namespace Erse

/-- Claim C3 (amended): with a detected nonzero article number — Python's
`if article_num:` treats a detected 0 as no detection, see the
counterexample — and at least one matching similarity result, the returned
list is the stable partition of the similarity results: boosted matching
items first, in their original similarity order, then the non-matching
items in their original order — matching items are not re-sorted among
themselves. -/
theorem search_stable_partition (query : PyStr)
    (regulations : Option (List PyStr)) (k : Nat)
    (results : List ScoredPoint) (storePoints : List Payload)
    (scrollOk : Bool) (n : Nat)
    (hn : detect_article_number query = some n) (hn0 : n ≠ 0)
    (hmatch : (results.map toChunk).filter
        (fun c => c.article_no == some (n : Int)) ≠ [])
    (hk : results.length ≤ k) :
    search_regulations query regulations k (some results) storePoints scrollOk
      = (((results.map toChunk).filter
            (fun c => c.article_no == some (n : Int))).map boostChunk)
        ++ (results.map toChunk).filter
            (fun c => !(c.article_no == some (n : Int))) := by
  rw [search_regulations_match_branch query regulations k results storePoints
    scrollOk n hn hn0 hmatch]
  apply List.take_of_length_le
  have hpart := List.length_eq_length_filter_add
    (l := results.map toChunk) (fun c => c.article_no == some (n : Int))
  simp only [List.length_append, List.length_map] at hpart ⊢
  omega

/-- Witness for `search_stable_partition`: the article-3 hit ranked second
by similarity moves boosted to the front, the article-4 hit follows. -/
theorem search_stable_partition_witness :
    search_regulations "article 3".toList none 5
      (some [⟨⟨"four".toList, "gdpr".toList, some 4, [], [], 0⟩, (1 : ℚ)/2⟩,
             ⟨⟨"three".toList, "gdpr".toList, some 3, [], [], 0⟩, (1 : ℚ)/3⟩])
      [] true
      = [boostChunk (toChunk
            ⟨⟨"three".toList, "gdpr".toList, some 3, [], [], 0⟩, (1 : ℚ)/3⟩),
         toChunk ⟨⟨"four".toList, "gdpr".toList, some 4, [], [], 0⟩,
            (1 : ℚ)/2⟩] := by
  rw [search_stable_partition "article 3".toList none 5 _ [] true 3
    (by decide) (by decide) (by decide) (by decide)]
  rfl

/-- Claim C5 (amended): when a nonzero article number is detected —
Python's `if article_num:` treats a detected 0 as no detection, see the
counterexample — each matching item's score is raised by exactly 0.3 and
clamped at 1.0; an item with pre-boost score 0.9 ends at exactly 1.0, and no
boosted score ever exceeds 1.0. -/
theorem search_boost_capped (query : PyStr)
    (regulations : Option (List PyStr)) (k : Nat)
    (results : List ScoredPoint) (storePoints : List Payload)
    (scrollOk : Bool) (n : Nat)
    (hn : detect_article_number query = some n) (hn0 : n ≠ 0)
    (hmatch : (results.map toChunk).filter
        (fun c => c.article_no == some (n : Int)) ≠ []) :
    search_regulations query regulations k (some results) storePoints scrollOk
      = ((((results.map toChunk).filter
            (fun (c : RChunk) => c.article_no == some (n : Int))).map
            (fun (c : RChunk) => { c with score := min (c.score + 3/10) 1 }))
          ++ (results.map toChunk).filter
            (fun (c : RChunk) => !(c.article_no == some (n : Int)))).take k
    ∧ boostScore (9/10) = 1
    ∧ ∀ s : ℚ, boostScore s ≤ 1 := by
  refine ⟨?_, ?_, fun s => min_le_right _ _⟩
  · rw [search_regulations_match_branch query regulations k results
      storePoints scrollOk n hn hn0 hmatch]
    rfl
  · show min ((9 : ℚ)/10 + 3/10) 1 = 1
    rw [min_eq_right (by norm_num)]

/-- Witness for `search_boost_capped`: one article-3 result with pre-boost
score 0.9. -/
theorem search_boost_capped_witness :
    detect_article_number "article 3".toList = some 3
    ∧ boostScore (9/10) = 1 :=
  ⟨by decide, (search_boost_capped "article 3".toList none 5
    [⟨⟨"three".toList, "gdpr".toList, some 3, [], [], 0⟩, (9 : ℚ)/10⟩]
    [] true 3 (by decide) (by decide) (by decide)).2.1⟩

/-- Claim C4, counterexample: with `regulations = ["gdpr"]`, a query naming
article 17 and no similarity hit for it, the fallback scan runs without the
regulation filter: the store's dsa article-17 point is returned, so not
every returned item has regulation "gdpr". -/
theorem search_filter_fallback_bypass_cex :
    ¬ (∀ c ∈ search_regulations "article 17".toList (some ["gdpr".toList]) 5
          (some []) [⟨"y17".toList, "dsa".toList, some 17, [], [], 0⟩] true,
        c.regulation = "gdpr".toList) := by
  decide

/-- The single-code filter, computed. -/
theorem buildSearchFilter_single (r : PyStr) :
    buildSearchFilter (some [r])
      = some (QFilter.must [⟨"regulation".toList, pyLower r⟩]) := rfl

/-- The several-codes filter, computed. -/
theorem buildSearchFilter_multi (r1 r2 : PyStr) (rest : List PyStr) :
    buildSearchFilter (some (r1 :: r2 :: rest))
      = some (QFilter.should ((r1 :: r2 :: rest).map
          (fun reg => ⟨"regulation".toList, pyLower reg⟩))) := rfl

/-- A payload matching a non-trivial regulations filter carries one of the
listed (lowercased) regulation codes. -/
theorem filterMatches_regulation (regs : List PyStr) (p : Payload)
    (hregs : regs ≠ [])
    (h : filterMatches (buildSearchFilter (some regs)) p = true) :
    ∃ reg ∈ regs, p.regulation = pyLower reg := by
  match regs, hregs with
  | [r], _ =>
      rw [buildSearchFilter_single] at h
      simp only [filterMatches, List.all_cons, List.all_nil, Bool.and_true,
        condMatches, Bool.and_eq_true, beq_iff_eq] at h
      exact ⟨r, List.mem_cons_self r [], h.2⟩
  | r1 :: r2 :: rest, _ =>
      rw [buildSearchFilter_multi] at h
      simp only [filterMatches, List.any_eq_true, List.mem_map] at h
      obtain ⟨c, ⟨reg, hreg, rfl⟩, hcm⟩ := h
      simp only [condMatches, Bool.and_eq_true, beq_iff_eq] at hcm
      exact ⟨reg, hreg, hcm.2⟩

/-- Claim C4 (amended): the filter is built as claimed — one code gives a
single must condition (AND), several codes give a should filter (OR), a
missing or empty list gives no filter — and, provided every similarity
result satisfies the filter, every returned item carries one of the listed
regulation codes whenever the unfiltered fallback scan cannot run (no
article number detected, or the detected number already occurs among the
similarity results); fallback-scan items themselves bypass the regulation
filter, as the counterexample shows. -/
theorem search_filter_semantics (query : PyStr) (regs : List PyStr) (k : Nat)
    (results : List ScoredPoint) (storePoints : List Payload)
    (scrollOk : Bool)
    (hregs : regs ≠ [])
    (hfilter : ∀ r ∈ results,
      filterMatches (buildSearchFilter (some regs)) r.payload = true)
    (hbranch : ∀ n, detect_article_number query = some n →
      (results.map toChunk).filter
        (fun c => c.article_no == some (n : Int)) ≠ []) :
    buildSearchFilter (some ["gdpr".toList])
      = some (QFilter.must [⟨"regulation".toList, "gdpr".toList⟩])
    ∧ buildSearchFilter (some ["gdpr".toList, "dsa".toList])
      = some (QFilter.should [⟨"regulation".toList, "gdpr".toList⟩,
          ⟨"regulation".toList, "dsa".toList⟩])
    ∧ buildSearchFilter none = none
    ∧ buildSearchFilter (some []) = none
    ∧ ∀ c ∈ search_regulations query (some regs) k (some results) storePoints
          scrollOk,
        ∃ reg ∈ regs, c.regulation = pyLower reg := by
  refine ⟨by decide, by decide, rfl, rfl, ?_⟩
  have hl : ∀ c ∈ results.map toChunk,
      ∃ reg ∈ regs, c.regulation = pyLower reg := by
    intro c hc
    rcases List.mem_map.1 hc with ⟨r, hr, rfl⟩
    exact filterMatches_regulation regs r.payload hregs (hfilter r hr)
  intro c hc
  rcases hdet : detect_article_number query with _ | n
  · rw [search_regulations_no_article query (some regs) k results storePoints
      scrollOk hdet] at hc
    exact hl c (List.mem_of_mem_take hc)
  · by_cases hn0 : n = 0
    · subst hn0
      rw [search_regulations_zero_article query (some regs) k results
        storePoints scrollOk hdet] at hc
      exact hl c (List.mem_of_mem_take hc)
    · have hmatch := hbranch n hdet
      rw [search_regulations_match_branch query (some regs) k results
        storePoints scrollOk n hdet hn0 hmatch] at hc
      rcases List.mem_append.1 (List.mem_of_mem_take hc) with hcl | hcr
      · rcases List.mem_map.1 hcl with ⟨c0, hc0, rfl⟩
        obtain ⟨reg, hreg, he⟩ := hl c0 (List.mem_filter.1 hc0).1
        exact ⟨reg, hreg, he⟩
      · exact hl c (List.mem_filter.1 hcr).1

/-- Witness for `search_filter_semantics`: one gdpr result for "article 1"
under the single-code gdpr filter. -/
theorem search_filter_semantics_witness :
    (["gdpr".toList] : List PyStr) ≠ []
    ∧ ∀ c ∈ search_regulations "article 1".toList (some ["gdpr".toList]) 5
        (some [⟨⟨"c1".toList, "gdpr".toList, some 1, [], [], 0⟩, (1 : ℚ)/2⟩])
        [] true,
      ∃ reg ∈ (["gdpr".toList] : List PyStr), c.regulation = pyLower reg := by
  refine ⟨by decide, (search_filter_semantics "article 1".toList
    ["gdpr".toList] 5
    [⟨⟨"c1".toList, "gdpr".toList, some 1, [], [], 0⟩, (1 : ℚ)/2⟩] [] true
    (by decide) (by decide) ?_).2.2.2.2⟩
  intro n h
  have hd : detect_article_number "article 1".toList = some 1 := by decide
  rw [hd] at h
  cases h
  decide

end Erse

namespace Erse

/-- Claim C2, counterexample: Python's truthiness guard `if article_num:`
treats a detected article number 0 as no detection.  For the query
"article 0" (detected as article 0) with no similarity hits and a stored
article-0 chunk, the program performs no fallback scan and returns no
results — not a 0.9-scored article-0 chunk at position 0 as the claim
requires. -/
theorem search_article_fallback_zero_cex :
    detect_article_number "article 0".toList = some 0
    ∧ search_regulations "article 0".toList none 5 (some [])
        [⟨"z0".toList, "gdpr".toList, some 0, [], [], 0⟩] true = [] := by
  decide

/-- Claim C3, counterexample: at a detected article number 0 with an
article-0 similarity hit, the program returns the similarity results in
their original order, unboosted — not the stable partition with the
article-0 item moved boosted to the front that the claim requires. -/
theorem search_stable_partition_zero_cex :
    detect_article_number "article 0".toList = some 0
    ∧ search_regulations "article 0".toList none 5
        (some [⟨⟨"four".toList, "gdpr".toList, some 4, [], [], 0⟩, (1 : ℚ)/2⟩,
               ⟨⟨"zero".toList, "gdpr".toList, some 0, [], [], 0⟩, (1 : ℚ)/3⟩])
        [] true
      = [toChunk ⟨⟨"four".toList, "gdpr".toList, some 4, [], [], 0⟩,
           (1 : ℚ)/2⟩,
         toChunk ⟨⟨"zero".toList, "gdpr".toList, some 0, [], [], 0⟩,
           (1 : ℚ)/3⟩]
    ∧ [toChunk ⟨⟨"four".toList, "gdpr".toList, some 4, [], [], 0⟩,
         (1 : ℚ)/2⟩,
       toChunk ⟨⟨"zero".toList, "gdpr".toList, some 0, [], [], 0⟩,
         (1 : ℚ)/3⟩]
      ≠ [boostChunk (toChunk ⟨⟨"zero".toList, "gdpr".toList, some 0, [], [],
           0⟩, (1 : ℚ)/3⟩),
         toChunk ⟨⟨"four".toList, "gdpr".toList, some 4, [], [], 0⟩,
           (1 : ℚ)/2⟩] := by
  refine ⟨by decide, ?_, by decide⟩
  rw [search_regulations_zero_article "article 0".toList none 5 _ [] true
    (by decide)]
  rfl

/-- Claim C5, counterexample: at a detected article number 0 the program
applies no boost — the article-0 result keeps its original score 0.9 —
whereas the claim's formula gives min(0.9 + 0.3, 1.0) = 1.0 ≠ 0.9. -/
theorem search_boost_capped_zero_cex :
    detect_article_number "article 0".toList = some 0
    ∧ search_regulations "article 0".toList none 5
        (some [⟨⟨"zero".toList, "gdpr".toList, some 0, [], [], 0⟩,
          (9 : ℚ)/10⟩]) [] true
      = [toChunk ⟨⟨"zero".toList, "gdpr".toList, some 0, [], [], 0⟩,
          (9 : ℚ)/10⟩]
    ∧ (toChunk ⟨⟨"zero".toList, "gdpr".toList, some 0, [], [], 0⟩,
        (9 : ℚ)/10⟩).score = 9/10
    ∧ boostScore (9/10) ≠ 9/10 := by
  refine ⟨by decide, ?_, rfl, ?_⟩
  · rw [search_regulations_zero_article "article 0".toList none 5 _ [] true
      (by decide)]
    rfl
  · have h1 : boostScore ((9 : ℚ)/10) = 1 := by
      show min ((9 : ℚ)/10 + 3/10) 1 = 1
      rw [min_eq_right (by norm_num)]
    rw [h1]
    norm_num

end Erse
